import Mathlib

/-!
Verification development for the `ssml-check` library (`src/index.js`).

The JavaScript source is shallowly embedded: elements produced by the
xml-js adapter become an inductive `Element` type whose optional fields
mirror JavaScript `undefined`; machine numbers become `Int`/`ℚ` with an
explicit `JsNumber.nan` for `NaN`; a thrown exception (`TypeError`,
`ReferenceError`) is modelled as `Except.error ()`.  The xml-js parser and
the ffprobe media prober are external collaborators and are passed in as
explicit parameters (`ParseResult`, a probe function).
-/

/-- A JavaScript number restricted to the values this program produces:
either `NaN` or an integer. -/
inductive JsNumber where
  | nan : JsNumber
  | num (v : Int) : JsNumber
deriving DecidableEq, Repr

/-- A JavaScript runtime value, used to embed the mixed-type
`Array.prototype.indexOf` call in the `say-as` checker, where the source
passes a Boolean to an `indexOf` over an array of strings. -/
inductive JsVal where
  | str (s : String) : JsVal
  | boolean (b : Bool) : JsVal
  | intv (n : Int) : JsVal

/-- JavaScript strict equality (`===`) on the embedded values: values of
different runtime types are never strictly equal. -/
def jsStrictEq : JsVal → JsVal → Bool
  | .str a, .str b => a == b
  | .boolean a, .boolean b => a == b
  | .intv a, .intv b => a == b
  | _, _ => false

def jsIndexOfAux (v : JsVal) : List JsVal → Int → Int
  | [], _ => -1
  | x :: r, i => if jsStrictEq x v then i else jsIndexOfAux v r (i + 1)

/-- `Array.prototype.indexOf`: the index of the first strictly-equal
element, `-1` when absent. -/
def jsIndexOf (l : List JsVal) (v : JsVal) : Int :=
  jsIndexOfAux v l 0

/-- Truthiness of a JavaScript number used in a boolean position: every
integer except `0` is truthy (in particular `-1` is truthy). -/
def intTruthy (n : Int) : Bool := !(n == 0)

/-- Whitespace skipped by JavaScript `parseInt`. -/
def jsWhitespace (c : Char) : Bool :=
  c == ' ' || c == '\t' || c == '\n' || c == '\r' ||
  c == Char.ofNat 11 || c == Char.ofNat 12

def isHexDigitJs (c : Char) : Bool :=
  c.isDigit || ('a' ≤ c && c ≤ 'f') || ('A' ≤ c && c ≤ 'F')

def hexDigitVal (c : Char) : Nat :=
  if c.isDigit then c.toNat - 48
  else if 'a' ≤ c && c ≤ 'f' then c.toNat - 87
  else c.toNat - 55

def natOfDigits (ds : List Char) : Nat :=
  ds.foldl (fun acc c => acc * 10 + (c.toNat - 48)) 0

def natOfHexDigits (ds : List Char) : Nat :=
  ds.foldl (fun acc c => acc * 16 + hexDigitVal c) 0

def parseIntDecimal (sign : Int) (l : List Char) : JsNumber :=
  let ds := l.takeWhile Char.isDigit
  if ds.isEmpty then JsNumber.nan else JsNumber.num (sign * (natOfDigits ds : Nat))

/-- JavaScript `parseInt(text)` (radix unspecified): skip leading
whitespace, read an optional sign, honour a `0x`/`0X` hex prefix, then
take the longest digit prefix; `NaN` when no digit is found. -/
def parseIntJs (s : String) : JsNumber :=
  let l := s.toList.dropWhile jsWhitespace
  let signAndRest : Int × List Char :=
    match l with
    | '-' :: r => (-1, r)
    | '+' :: r => (1, r)
    | _ => (1, l)
  let sign := signAndRest.1
  match signAndRest.2 with
  | '0' :: x :: r =>
    if x == 'x' || x == 'X' then
      let ds := r.takeWhile isHexDigitJs
      if ds.isEmpty then JsNumber.nan else JsNumber.num (sign * (natOfHexDigits ds : Nat))
    else parseIntDecimal sign signAndRest.2
  | _ => parseIntDecimal sign signAndRest.2

/-- Parse `[0-9]+(\.[0-9]+)?` at the head of the list, returning the
decimal value and the unconsumed rest; `none` when no leading digit.
When a `.` is not followed by a digit the optional fractional group of
the regex does not participate, so the `.` is left unconsumed. -/
def decThen (l : List Char) : Option (ℚ × List Char) :=
  let ds := l.takeWhile Char.isDigit
  let rest := l.dropWhile Char.isDigit
  if ds.isEmpty then none
  else
    match rest with
    | '.' :: r2 =>
      let fs := r2.takeWhile Char.isDigit
      if fs.isEmpty then some ((natOfDigits ds : ℚ), rest)
      else some ((natOfDigits ds : ℚ) + (natOfDigits fs : ℚ) / ((10 : ℚ) ^ fs.length),
                 r2.dropWhile Char.isDigit)
    | _ => some ((natOfDigits ds : ℚ), rest)

/-- The unanchored regex `'[0-9]+ms'` of `readDuration`: the text merely
has to contain a digit immediately followed by `ms` somewhere. -/
def containsDigitMs : List Char → Bool
  | [] => false
  | c :: rest =>
    (c.isDigit && (match rest with | 'm' :: 's' :: _ => true | _ => false)) ||
    containsDigitMs rest

/-- The unanchored regex `'[0-9]+%'` of `prosodyRate`. -/
def containsDigitPercent : List Char → Bool
  | [] => false
  | c :: rest =>
    (c.isDigit && (match rest with | '%' :: _ => true | _ => false)) ||
    containsDigitPercent rest

/-- The anchored regex `/^[0-9]+(\.[0-9]+)?s$/`. -/
def matchSecondsAnchored (l : List Char) : Bool :=
  match decThen l with
  | some (_, rest) => rest == ['s']
  | none => false

/-- The regex `/^(\+)?[0-9]+(\.[0-9]+)?$/` used for `speed` and
`repeatCount`. -/
def matchNumPlus (l : List Char) : Bool :=
  let l2 := match l with | '+' :: r => r | _ => l
  match decThen l2 with
  | some (_, rest) => rest.isEmpty
  | none => false

/-- The regex `/^[+-][0-9]+(\.[0-9]+)?dB$/` used for `soundLevel` and
prosody `volume`. -/
def matchDb (l : List Char) : Bool :=
  match l with
  | c :: r =>
    (c == '+' || c == '-') &&
    (match decThen r with
     | some (_, rest) => rest == ['d', 'B']
     | none => false)
  | [] => false

/-- `/^\+[0-9]+(\.[0-9]+)?%$/`, returning the numeric value of the match
(on such an anchored match, JavaScript `parseFloat` returns exactly the
literal decimal). -/
def parsePlusPercent (l : List Char) : Option ℚ :=
  match l with
  | '+' :: r =>
    match decThen r with
    | some (q, ['%']) => some q
    | _ => none
  | _ => none

/-- `/^\-[0-9]+(\.[0-9]+)?%$/`, returning the (negative) numeric value. -/
def parseMinusPercent (l : List Char) : Option ℚ :=
  match l with
  | '-' :: r =>
    match decThen r with
    | some (q, ['%']) => some (-q)
    | _ => none
  | _ => none

/-- The unit alternatives `(h|min|s|ms)` at the end of the `media`
time patterns. -/
def unitSuffixOk (rest : List Char) : Bool :=
  rest == ['h'] || rest == ['m', 'i', 'n'] || rest == ['s'] || rest == ['m', 's']

/-- `/^[+-]?[0-9]+(\.[0-9]+)?(h|min|s|ms)$/` for `media` `begin`/`end`. -/
def matchMediaTime (l : List Char) : Bool :=
  let l2 := match l with | '+' :: r => r | '-' :: r => r | _ => l
  match decThen l2 with
  | some (_, rest) => unitSuffixOk rest
  | none => false

/-- Regex `.`: any character except a line terminator. -/
def jsDotOk (c : Char) : Bool :=
  !(c == '\n' || c == '\r' || c == Char.ofNat 0x2028 || c == Char.ofNat 0x2029)

def offsetTail (r2 : List Char) : Bool :=
  match r2 with
  | s :: r3 =>
    (s == '+' || s == '-') &&
    (match decThen r3 with
     | some (_, rest) => unitSuffixOk rest
     | none => false)
  | [] => false

/-- `/^.\.(begin|end)[+-][0-9]+(\.[0-9]+)?(h|min|s|ms)$/` for relative
`media` `begin`/`end` values. -/
def matchMediaOffset (l : List Char) : Bool :=
  match l with
  | c :: '.' :: r =>
    jsDotOk c &&
    (match r with
     | 'b' :: 'e' :: 'g' :: 'i' :: 'n' :: r2 => offsetTail r2
     | 'e' :: 'n' :: 'd' :: r2 => offsetTail r2
     | _ => false)
  | _ => false

def lbrace : Char := Char.ofNat 123
def rbrace : Char := Char.ofNat 125

/-- The `media` `xml:id` regex `/^([-_#]|\p{L}|\p{D})+$/g` is compiled
without the `u` flag, so `\p{L}` and `\p{D}` match the literal
three-character sequences `p{L}` and `p{D}` (Annex B identity escape
plus a literal brace), not Unicode property classes. -/
def xmlIdTail : List Char → Bool
  | [] => true
  | c :: r =>
    if c == '-' || c == '_' || c == '#' then xmlIdTail r
    else if c == 'p' then
      match r with
      | b :: x :: b2 :: r2 =>
        (b == lbrace && (x == 'L' || x == 'D') && b2 == rbrace) && xmlIdTail r2
      | _ => false
    else false

def xmlIdMatch (l : List Char) : Bool :=
  !l.isEmpty && xmlIdTail l

/-- Truthiness of `maximum` in `readDuration` (`undefined` and `0` are
falsy). -/
def maxTruthy : Option Int → Bool
  | none => false
  | some m => !(m == 0)

def jsMul1000 : JsNumber → JsNumber
  | .nan => .nan
  | .num n => .num (1000 * n)

/-- `time <= maximum` in JavaScript: false when `time` is `NaN`. -/
def jsLeInt : JsNumber → Int → Bool
  | .nan, _ => false
  | .num n, m => decide (n ≤ m)

/-- The `time` cascade of `readDuration(text, maximum)`: `"infinity"`
(only when `maximum` is falsy), then the unanchored `'[0-9]+ms'` regex
(note `parseInt` is applied to the whole original text, so it can yield
`NaN` although the regex matched a substring), then the anchored seconds
regex with `1000 * parseInt(text)` truncating the fraction. -/
def readDurationRaw (text : String) (maximum : Option Int) : Option JsNumber :=
  if !(maxTruthy maximum) && text == "infinity" then
    some (JsNumber.num 9007199254740991)
  else if containsDigitMs text.toList then
    some (parseIntJs text)
  else if matchSecondsAnchored text.toList then
    some (jsMul1000 (parseIntJs text))
  else none

/-- `readDuration(text, maximum)` from `src/index.js`: the `time`
cascade followed by the `time <= maximum` clamp (skipped when `maximum`
is falsy; false for `NaN`, which makes the result `undefined`). -/
def readDuration (text : String) (maximum : Option Int) : Option JsNumber :=
  match readDurationRaw text maximum with
  | none => none
  | some t =>
    if maxTruthy maximum then
      if jsLeInt t (maximum.getD 0) then some t else none
    else some t

def listIndexOfAux (s : String) : List String → Nat → Option Nat
  | [], _ => none
  | x :: r, i => if x == s then some i else listIndexOfAux s r (i + 1)

def listIndexOf (l : List String) (s : String) : Option Nat :=
  listIndexOfAux s l 0

/-- `prosodyRate(text)` from `src/index.js`.  When the unanchored
`'[0-9]+%'` regex matches but `parseInt` yields `NaN`, the `rate < 20`
guard is false, and `NaN` is then falsy at the final
`(rate) ? rate / 100.0 : undefined` step. -/
def prosodyRate (text : String) : Option ℚ :=
  let rates := ["x-slow", "slow", "medium", "fast", "x-fast"]
  let values : List ℚ := [3/10, 6/10, 1, 15/10, 2]
  match listIndexOf rates text with
  | some i => some (values.getD i 0)
  | none =>
    if containsDigitPercent text.toList then
      match parseIntJs text with
      | .nan => none
      | .num r => if r < 20 then none else some ((r : ℚ) / 100)
    else none

/-- Truthiness of the `Option ℚ` result of `prosodyRate` at its caller
(`if (!prosodyRate(...))`). -/
def qTruthy : Option ℚ → Bool
  | none => false
  | some q => !(q == 0)

def listStartsWith : List Char → List Char → Bool
  | [], _ => true
  | _ :: _, [] => false
  | p :: ps, c :: cs => p == c && listStartsWith ps cs

/-- Search for `.mp3` with every skipped character constrained by the
regex `.` (no line terminators), as in `(.)+\.mp3`. -/
def findDotMp3 : List Char → Bool
  | [] => false
  | c :: rest =>
    listStartsWith ['.', 'm', 'p', '3'] (c :: rest) ||
    (jsDotOk c && findDotMp3 rest)

/-- The regex `/^https(.)+\.mp3/gi` of `validateAudio`: case-insensitive,
anchored at the start, at least one character between `https` and
`.mp3`. -/
def isHttpsMp3 (s : String) : Bool :=
  match s.toList.map Char.toLower with
  | 'h' :: 't' :: 't' :: 'p' :: 's' :: c :: rest => jsDotOk c && findDotMp3 rest
  | _ => false

/-- An element of the xml-js non-compact output tree.  Every field is
optional exactly as the corresponding JavaScript property can be
`undefined`: text nodes have no `name`, an element written without
attributes has no `attributes` object at all, and a childless element has
no `elements` array. -/
inductive Element : Type where
  | mk : Option String → Option (List (String × String)) → Option (List Element) → Element

def Element.nameOf : Element → Option String
  | .mk n _ _ => n

def Element.attrsOf : Element → Option (List (String × String))
  | .mk _ a _ => a

def Element.childrenOf : Element → Option (List Element)
  | .mk _ _ c => c

/-- First-match attribute lookup (JavaScript object property read;
`none` embeds `undefined`). -/
def lookupAttr (attrs : List (String × String)) (key : String) : Option String :=
  match attrs with
  | [] => none
  | (k, v) :: r => if k == key then some v else lookupAttr r key

/-- An error record as pushed by `src/index.js`.  `value` is tri-state:
`none` means the property was never assigned, `some none` embeds an
assigned `undefined` (the required-but-absent marker), `some (some s)`
an assigned string. -/
structure SSMLError where
  type : String
  tag : Option String := none
  attr : Option String := none
  value : Option (Option String) := none
  detail : Option String := none
deriving DecidableEq, Repr

/-- `createTagError(element, attribute, undefinedValue)`.  When
`undefinedValue` is falsy the source reads
`element.attributes[attribute]`; if the element has no attributes object
this is a property read on `undefined` and throws a `TypeError`,
embedded as `Except.error ()`. -/
def createTagError (element : Element) (attr : String) (undefinedValue : Bool) :
    Except Unit SSMLError :=
  if undefinedValue then
    .ok { type := "tag", tag := element.nameOf, attr := some attr, value := some none }
  else
    match element.attrsOf with
    | none => .error ()
    | some attrs =>
      .ok { type := "tag", tag := element.nameOf, attr := some attr,
            value := some (lookupAttr attrs attr) }

/-- A decoded stream descriptor returned by the ffprobe collaborator
(`parseInt(stream.sample_rate)` and the numeric coercions of `!=` and
`>` are already applied to the numeric model). -/
structure AudioStream where
  sample_rate : Int
  bit_rate : Int
  duration : ℚ
deriving DecidableEq

/-- The three per-stream checks of `validateAudio`, in source order.  The
detail strings reproduce the source verbatim (the sample-rate message
says "bit rate" and the duration message appends "Hz"). -/
def streamErrors (src : String) (st : AudioStream) : List SSMLError :=
  (if ([22050, 24000, 16000] : List Int).contains st.sample_rate then []
   else [{ type := "audio", value := some (some src),
           detail := some ("Invalid bit rate " ++ toString st.sample_rate ++ " Hz") }]) ++
  (if st.bit_rate == 48000 then []
   else [{ type := "audio", value := some (some src),
           detail := some ("Invalid bit rate " ++ toString st.bit_rate) }]) ++
  (if 240 < st.duration then
     [{ type := "audio", value := some (some src),
        detail := some ("Invalid duration " ++ toString st.duration ++ " Hz") }]
   else [])

/-- `validateAudio(src)` with the ffprobe collaborator abstracted as the
already-settled probe outcome: `none` embeds a rejected probe (caught and
converted to the "Can't access file" error), `some streams` a successful
probe. -/
def validateAudio (src : String) (probe : Option (List AudioStream)) : List SSMLError :=
  if !(isHttpsMp3 src) then
    [{ type := "audio", value := some (some src), detail := some "Not MP3 on HTTPS" }]
  else
    match probe with
    | none => [{ type := "audio", value := some (some src), detail := some "Can\x27t access file" }]
    | some streams => streams.foldl (fun acc st => acc ++ streamErrors src st) []

mutual
/-- `getAudioFiles(element)`.  Because of the source's `else if`, an
`audio` element that has a child list is only recursed into and its own
`src` is never collected; a childless `audio` element without an
attributes object throws (`element.attributes.src` on `undefined`); an
empty-string `src` is falsy and not collected. -/
def getAudioFiles (e : Element) : Except Unit (List String) :=
  match e with
  | .mk name attrs elements =>
    match elements with
    | some items => getAudioFilesList items
    | none =>
      if name == some "audio" then
        match attrs with
        | none => .error ()
        | some a =>
          match lookupAttr a "src" with
          | some s => if s == "" then .ok [] else .ok [s]
          | none => .ok []
      else .ok []

def getAudioFilesList (es : List Element) : Except Unit (List String) :=
  match es with
  | [] => .ok []
  | e :: rest =>
    match getAudioFiles e with
    | .error u => .error u
    | .ok f =>
      match getAudioFilesList rest with
      | .error u => .error u
      | .ok r => .ok (f ++ r)
end

/-- One `if (condition is satisfied) … else errors.push(createTagError(element,
attribute, undefinedValue))` step of the attribute loops. -/
def attrCheck (e : Element) (attr : String) (ok : Bool) (undefinedValue : Bool) :
    Except Unit (List SSMLError) :=
  if ok then .ok []
  else
    match createTagError e attr undefinedValue with
    | .error u => .error u
    | .ok er => .ok [er]

/-- `attributes.forEach(...)` accumulating pushed errors in order. -/
def forEachAttr (keys : List String) (f : String → Except Unit (List SSMLError)) :
    Except Unit (List SSMLError) :=
  match keys with
  | [] => .ok []
  | a :: rest =>
    match f a with
    | .error u => .error u
    | .ok e1 =>
      match forEachAttr rest f with
      | .error u => .error u
      | .ok e2 => .ok (e1 ++ e2)

/-- The `if (attributes.length === 0) errors.push(createTagError(element,
'none'))` required-attribute step shared by `amazon:effect`, `audio`,
`emphasis` and `lang`. -/
def requiredCheck (e : Element) (keys : List String) (list : List SSMLError) :
    Except Unit (List SSMLError) :=
  if keys.length == 0 then
    match createTagError e "none" false with
    | .error u => .error u
    | .ok er => .ok (list ++ [er])
  else .ok list

def validTags : List String :=
  ["audio", "break", "emphasis", "p", "prosody", "s", "say-as", "speak", "sub"]

def validAmazonTags : List String :=
  ["amazon:effect", "lang", "phoneme", "voice", "w"]

def validGoogleTags : List String :=
  ["par", "seq", "media"]

/-- `['par', 'seq', 'media'].indexOf(item.name) === -1` on a child whose
`name` may be `undefined` (text node). -/
def childNameOk (n : Option String) : Bool :=
  match n with
  | some s => validGoogleTags.contains s
  | none => false

def voiceNames : List String :=
  ["Ivy", "Joanna", "Joey", "Justin", "Kendra", "Kimberly", "Matthew", "Salli",
   "Nicole", "Russell", "Amy", "Brian", "Emma", "Aditi", "Raveena",
   "Hans", "Marlene", "Vicki", "Conchita", "Enrique",
   "Carla", "Giorgio", "Mizuki", "Takumi", "Celine", "Lea", "Mathieu"]

def langValues : List String :=
  ["en-US", "en-GB", "en-IN", "en-AU", "en-CA", "de-DE", "es-ES", "it-IT", "ja-JP", "fr-FR"]

def interpretAsUniversal : List String :=
  ["characters", "spell-out", "cardinal", "ordinal",
   "fraction", "unit", "date", "time", "telephone", "expletive"]

def sayAsFormats : List String :=
  ["mdy", "dmy", "ymd", "md", "dm", "ym", "my", "d", "m", "y"]

/-- The `match`-free sequencing of an attribute loop result into the
shared required-attribute check. -/
def withRequired (e : Element) (keys : List String) (r : Except Unit (List SSMLError)) :
    Except Unit (List SSMLError) :=
  match r with
  | .error u => .error u
  | .ok list => requiredCheck e keys list

def keysOf (e : Element) : List String :=
  (e.attrsOf.getD []).map Prod.fst

/-- `element.attributes[a]` inside an attribute loop, where the
attributes object is known to exist because `a` came from its keys. -/
def valOf (e : Element) (a : String) : String :=
  (lookupAttr (e.attrsOf.getD []) a).getD ""

/-- `case 'amazon:effect'`. -/
def amazonEffectCase (e : Element) : Except Unit (List SSMLError) :=
  withRequired e (keysOf e) (forEachAttr (keysOf e) (fun attr =>
    if attr == "name" then
      attrCheck e attr (["whispered"].contains (valOf e "name")) false
    else
      attrCheck e attr false true))

/-- `case 'audio'`. -/
def audioCase (e : Element) (platform : String) : Except Unit (List SSMLError) :=
  withRequired e (keysOf e) (forEachAttr (keysOf e) (fun attr =>
    if platform == "google" && attr == "clipBegin" then
      attrCheck e attr (!(readDuration (valOf e "clipBegin") none == none)) false
    else if platform == "google" && attr == "clipEnd" then
      attrCheck e attr (!(readDuration (valOf e "clipEnd") none == none)) false
    else if platform == "google" && attr == "speed" then
      attrCheck e attr (matchNumPlus (valOf e "speed").toList) false
    else if platform == "google" && attr == "repeatCount" then
      attrCheck e attr (matchNumPlus (valOf e "repeatCount").toList) false
    else if platform == "google" && attr == "repeatDur" then
      attrCheck e attr (!(readDuration (valOf e "repeatDur") none == none)) false
    else if platform == "google" && attr == "soundLevel" then
      attrCheck e attr (matchDb (valOf e "soundLevel").toList) false
    else if !(attr == "src") then
      attrCheck e attr false true
    else attrCheck e attr true false))

/-- `case 'break'`. -/
def breakCase (e : Element) : Except Unit (List SSMLError) :=
  forEachAttr (keysOf e) (fun attr =>
    if attr == "strength" then
      attrCheck e attr
        (["none", "x-weak", "weak", "medium", "strong", "x-strong"].contains
          (valOf e "strength")) false
    else if attr == "time" then
      attrCheck e attr (!(readDuration (valOf e "time") (some 10000) == none)) false
    else
      attrCheck e attr false true)

/-- `case 'emphasis'`. -/
def emphasisCase (e : Element) (platform : String) : Except Unit (List SSMLError) :=
  withRequired e (keysOf e) (forEachAttr (keysOf e) (fun attr =>
    if attr == "level" then
      attrCheck e attr
        (["strong", "moderate", "reduced"].contains (valOf e "level") ||
         (platform == "google" && valOf e "level" == "none")) false
    else
      attrCheck e attr false true))

/-- `case 'lang'`. -/
def langCase (e : Element) : Except Unit (List SSMLError) :=
  withRequired e (keysOf e) (forEachAttr (keysOf e) (fun attr =>
    if attr == "xml:lang" then
      attrCheck e attr (langValues.contains (valOf e "xml:lang")) false
    else
      attrCheck e attr false true))

/-- `case 'media'`. -/
def mediaCase (e : Element) : Except Unit (List SSMLError) :=
  forEachAttr (keysOf e) (fun attr =>
    if attr == "xml:id" then
      attrCheck e attr (xmlIdMatch (valOf e "xml:id").toList) false
    else if attr == "begin" then
      attrCheck e attr
        (matchMediaTime (valOf e "begin").toList || matchMediaOffset (valOf e "begin").toList)
        false
    else if attr == "end" then
      attrCheck e attr
        (matchMediaTime (valOf e "end").toList || matchMediaOffset (valOf e "end").toList) false
    else if attr == "repeatCount" then
      attrCheck e attr (matchNumPlus (valOf e "repeatCount").toList) false
    else if attr == "repeatDur" then
      attrCheck e attr (!(readDuration (valOf e "repeatDur") none == none)) false
    else if attr == "soundLevel" then
      attrCheck e attr (matchDb (valOf e "soundLevel").toList) false
    else if attr == "fadeInDur" then
      attrCheck e attr (!(readDuration (valOf e "fadeInDur") none == none)) false
    else if attr == "fadeOutDur" then
      attrCheck e attr (!(readDuration (valOf e "fadeOutDur") none == none)) false
    else
      attrCheck e attr false true)

/-- `case 'p'` and `case 's'`: no attributes allowed. -/
def noAttributesCase (e : Element) : Except Unit (List SSMLError) :=
  forEachAttr (keysOf e) (fun attr => attrCheck e attr false true)

/-- `case 'par'` / `case 'seq'`: for the first child whose name is not
`par`, `seq` or `media`, the source evaluates the undeclared identifier
`attribute`, raising a ReferenceError before anything is pushed. -/
def parSeqCase (e : Element) : Except Unit (List SSMLError) :=
  match e.childrenOf with
  | some items =>
    if items.any (fun i => !(childNameOk i.nameOf)) then .error () else .ok []
  | none => .ok []

/-- `case 'phoneme'`. -/
def phonemeCase (e : Element) : Except Unit (List SSMLError) :=
  forEachAttr (keysOf e) (fun attr =>
    if attr == "alphabet" then
      attrCheck e attr (["ipa", "x-sampa"].contains (valOf e "alphabet")) false
    else if !(attr == "ph") then
      attrCheck e attr false true
    else attrCheck e attr true false)

/-- `case 'prosody'`. -/
def prosodyCase (e : Element) : Except Unit (List SSMLError) :=
  forEachAttr (keysOf e) (fun attr =>
    if attr == "rate" then
      attrCheck e attr (qTruthy (prosodyRate (valOf e "rate"))) false
    else if attr == "pitch" then
      attrCheck e attr
        (["x-low", "low", "medium", "high", "x-high"].contains (valOf e "pitch") ||
         (match parsePlusPercent (valOf e "pitch").toList with
          | some q => decide (q ≤ 50)
          | none =>
            match parseMinusPercent (valOf e "pitch").toList with
            | some q => decide (-(333/10 : ℚ) ≤ q)
            | none => false)) false
    else if attr == "volume" then
      attrCheck e attr
        (["silent", "x-soft", "soft", "medium", "loud", "x-loud"].contains (valOf e "volume") ||
         matchDb (valOf e "volume").toList) false
    else
      attrCheck e attr false true)

/-- `case 'say-as'`.  In the platform-specific test the source passes the
Boolean `element.attributes['interpret-as'] !== -1` (always true, since a
string is never strictly equal to a number) to `indexOf` over an array of
strings; that `indexOf` is `-1`, which is truthy, so `supported` depends
only on the platform. -/
def sayAsCase (e : Element) (platform : String) : Except Unit (List SSMLError) :=
  forEachAttr (keysOf e) (fun attr =>
    if attr == "interpret-as" then
      attrCheck e attr
        (interpretAsUniversal.contains (valOf e "interpret-as") ||
         (let vneq := !(jsStrictEq (JsVal.str (valOf e "interpret-as")) (JsVal.intv (-1)))
          (platform == "amazon" &&
            intTruthy (jsIndexOf
              (["number", "digits", "address", "interjection"].map JsVal.str)
              (JsVal.boolean vneq))) ||
          (platform == "google" &&
            intTruthy (jsIndexOf (["bleep", "verbatim"].map JsVal.str)
              (JsVal.boolean vneq))))) false
    else if attr == "format" then
      attrCheck e attr (sayAsFormats.contains (valOf e "format")) false
    else if platform == "google" && attr == "detail" then
      attrCheck e attr (["1", "2"].contains (valOf e "detail")) false
    else
      attrCheck e attr false true)

/-- `case 'sub'`. -/
def subCase (e : Element) : Except Unit (List SSMLError) :=
  forEachAttr (keysOf e) (fun attr =>
    if !(attr == "alias") then attrCheck e attr false true
    else attrCheck e attr true false)

/-- `case 'voice'`. -/
def voiceCase (e : Element) : Except Unit (List SSMLError) :=
  forEachAttr (keysOf e) (fun attr =>
    if attr == "name" then
      attrCheck e attr (voiceNames.contains (valOf e "name")) false
    else
      attrCheck e attr false true)

/-- `case 'w'`. -/
def wCase (e : Element) : Except Unit (List SSMLError) :=
  forEachAttr (keysOf e) (fun attr =>
    if attr == "role" then
      attrCheck e attr
        (["amazon:VB", "amazon:VBD", "amazon:NN", "amazon:SENSE_1"].contains (valOf e "role"))
        false
    else
      attrCheck e attr false true)

/-- The per-element body of `checkForValidTags` (everything inside
`if (element.name) { ... }`, before the recursion into children): the
tag-legality test followed by the `switch (element.name)` dispatch.
Returns the errors pushed for this element, or `Except.error ()` when the
source would throw. -/
def elementErrors (e : Element) (platform : String) : Except Unit (List SSMLError) :=
  match e.nameOf with
  | none => .ok []
  | some name =>
    -- `if (element.name)`: the empty string is falsy.
    if name == "" then .ok []
    else if !(validTags.contains name) &&
        !((platform == "amazon" && validAmazonTags.contains name) ||
          (platform == "google" && validGoogleTags.contains name)) then
      .ok [{ type := "tag", tag := some name }]
    else if name == "amazon:effect" then amazonEffectCase e
    else if name == "audio" then audioCase e platform
    else if name == "break" then breakCase e
    else if name == "emphasis" then emphasisCase e platform
    else if name == "lang" then langCase e
    else if name == "media" then mediaCase e
    else if name == "p" then noAttributesCase e
    else if name == "par" || name == "seq" then parSeqCase e
    else if name == "phoneme" then phonemeCase e
    else if name == "prosody" then prosodyCase e
    else if name == "s" then noAttributesCase e
    else if name == "say-as" then sayAsCase e platform
    else if name == "sub" then subCase e
    else if name == "voice" then voiceCase e
    else if name == "w" then wCase e
    else .ok []

mutual
/-- `checkForValidTags(errors, element, platform)`: the element's own
checks, then recursion into `element.elements` in order.  The Boolean
result records whether an exception escaped (aborting the remaining
traversal with the errors accumulated so far, as a thrown exception
does in the source). -/
def checkForValidTags (errors : List SSMLError) (e : Element) (platform : String) :
    List SSMLError × Bool :=
  match elementErrors e platform with
  | .error _ => (errors, true)
  | .ok own =>
    match e with
    | .mk _ _ none => (errors ++ own, false)
    | .mk _ _ (some children) => checkTagsList (errors ++ own) children platform

def checkTagsList (errors : List SSMLError) (es : List Element) (platform : String) :
    List SSMLError × Bool :=
  match es with
  | [] => (errors, false)
  | e :: rest =>
    match checkForValidTags errors e platform with
    | (errs, true) => (errs, true)
    | (errs, false) => checkTagsList errs rest platform
end

/-- The outcome of `JSON.parse(convert.xml2json(text, {compact: false}))`:
the xml-js adapter is an external collaborator, so the parse outcome is a
parameter.  `err` embeds a thrown parse error; `ok` carries the optional
`result.elements` array. -/
inductive ParseResult where
  | err : ParseResult
  | ok (topElements : Option (List Element)) : ParseResult

structure CheckOptions where
  platform : Option String := none
  validateAudioFiles : Bool := false

/-- `userOptions.platform = userOptions.platform || 'all'` (an absent
options object, an absent platform and the falsy empty string all
default to `"all"`). -/
def resolvedPlatform (options : Option CheckOptions) : String :=
  match options with
  | none => "all"
  | some o =>
    match o.platform with
    | none => "all"
    | some p => if p == "" then "all" else p

def validateFlag (options : Option CheckOptions) : Bool :=
  match options with
  | none => false
  | some o => o.validateAudioFiles

/-- `errors.length ? errors : undefined`. -/
def finalize (errors : List SSMLError) : Option (List SSMLError) :=
  if errors.isEmpty then none else some errors

/-- `check(ssml, options)` with the two external collaborators as
parameters: `parse1` is the first xml2json outcome, `retryOk` whether the
retry after replacing the first `&` with `&amp;` parses, and `probe` the
settled ffprobe outcome per audio source.  The second component records
whether the outer `try`/`catch` caught an exception. -/
def checkFull (parse1 : ParseResult) (retryOk : Bool) (options : Option CheckOptions)
    (probe : String → Option (List AudioStream)) : Option (List SSMLError) × Bool :=
  let platform := resolvedPlatform options
  if !(["all", "amazon", "google"].contains platform) then
    (some [{ type := "invalid platform" }], false)
  else
    match parse1 with
    | .err =>
      if retryOk then (some [{ type := "Invalid & character" }], false)
      else (some [{ type := "Can\x27t parse SSML" }], false)
    | .ok topElements =>
      match topElements with
      | some [speech] =>
        if speech.nameOf == some "speak" then
          match checkForValidTags [] speech platform with
          | (errs, true) => (finalize (errs ++ [{ type := "unknown error" }]), true)
          | (errs, false) =>
            match getAudioFiles speech with
            | .error _ => (finalize (errs ++ [{ type := "unknown error" }]), true)
            | .ok audio =>
              let errs2 := if audio.length > 5 then
                  errs ++ [{ type := "Too many audio files" }]
                else errs
              if validateFlag options then
                let audioErrors := audio.foldl (fun acc f => acc ++ validateAudio f (probe f)) []
                (finalize (errs2 ++ audioErrors), false)
              else
                (finalize errs2, false)
        else (some [{ type := "tag", tag := some "speak" }], false)
      | _ => (some [{ type := "tag", tag := some "speak" }], false)

/-- The public entry point's settled result. -/
def check (parse1 : ParseResult) (retryOk : Bool) (options : Option CheckOptions)
    (probe : String → Option (List AudioStream)) : Option (List SSMLError) :=
  (checkFull parse1 retryOk options probe).1

/-! ### Helper lemmas -/

theorem mem_foldl_append {β : Type} (g : β → List SSMLError) :
    ∀ (l : List β) (init : List SSMLError) (x : SSMLError),
      x ∈ l.foldl (fun acc b => acc ++ g b) init ↔ x ∈ init ∨ ∃ b ∈ l, x ∈ g b := by
  intro l
  induction l with
  | nil => intro init x; simp
  | cons b rest ih =>
    intro init x
    simp only [List.foldl_cons, ih, List.mem_append, List.mem_cons]
    constructor
    · rintro (⟨h | h⟩ | ⟨c, hc, hx⟩)
      · exact Or.inl h
      · exact Or.inr ⟨b, Or.inl rfl, h⟩
      · exact Or.inr ⟨c, Or.inr hc, hx⟩
    · rintro (h | ⟨c, (rfl | hc), hx⟩)
      · exact Or.inl (Or.inl h)
      · exact Or.inl (Or.inr hx)
      · exact Or.inr ⟨c, hc, hx⟩

theorem finalize_of_ne_nil (l : List SSMLError) (h : l ≠ []) : finalize l = some l := by
  simp [finalize, h]

theorem createTagError_type (e : Element) (a : String) (u : Bool) (er : SSMLError)
    (h : createTagError e a u = .ok er) : er.type = "tag" := by
  unfold createTagError at h
  split at h
  · cases h; rfl
  · split at h
    · cases h
    · cases h; rfl

theorem attrCheck_type (e : Element) (a : String) (ok u : Bool) (l : List SSMLError)
    (h : attrCheck e a ok u = .ok l) : ∀ x ∈ l, x.type = "tag" := by
  unfold attrCheck at h
  split at h
  · cases h; simp
  · split at h
    · cases h
    · rename_i er her
      cases h
      intro x hx
      rcases List.mem_singleton.mp hx with rfl
      exact createTagError_type e a u x her

theorem forEachAttr_type (keys : List String) (f : String → Except Unit (List SSMLError))
    (hf : ∀ a l, f a = .ok l → ∀ x ∈ l, x.type = "tag") :
    ∀ out, forEachAttr keys f = .ok out → ∀ x ∈ out, x.type = "tag" := by
  induction keys with
  | nil => intro out h; cases h; simp
  | cons a rest ih =>
    intro out h
    unfold forEachAttr at h
    split at h
    · cases h
    · rename_i e1 h1
      split at h
      · cases h
      · rename_i e2 h2
        cases h
        intro x hx
        rcases List.mem_append.mp hx with hx | hx
        · exact hf a e1 h1 x hx
        · exact ih e2 h2 x hx

theorem requiredCheck_type (e : Element) (keys : List String) (list out : List SSMLError)
    (hl : ∀ x ∈ list, x.type = "tag") (h : requiredCheck e keys list = .ok out) :
    ∀ x ∈ out, x.type = "tag" := by
  unfold requiredCheck at h
  split at h
  · split at h
    · cases h
    · rename_i er her
      cases h
      intro x hx
      rcases List.mem_append.mp hx with hx | hx
      · exact hl x hx
      · rcases List.mem_singleton.mp hx with rfl
        exact createTagError_type e "none" false x her
  · cases h; exact hl


theorem withRequired_type (e : Element) (keys : List String)
    (r : Except Unit (List SSMLError)) (own : List SSMLError)
    (hr : ∀ l, r = .ok l → ∀ x ∈ l, x.type = "tag")
    (h : withRequired e keys r = .ok own) : ∀ x ∈ own, x.type = "tag" := by
  unfold withRequired at h
  split at h
  · exact Except.noConfusion h
  · rename_i list
    exact requiredCheck_type e keys list own (hr list rfl) h

theorem amazonEffectCase_type (e : Element) (own : List SSMLError)
    (h : amazonEffectCase e = .ok own) : ∀ x ∈ own, x.type = "tag" := by
  unfold amazonEffectCase at h
  refine withRequired_type _ _ _ _ (fun l hl => forEachAttr_type _ _ ?_ l hl) h
  intro a l2 hf
  iterate 4 (all_goals (try split at hf))
  all_goals exact attrCheck_type _ _ _ _ _ hf

theorem audioCase_type (e : Element) (platform : String) (own : List SSMLError)
    (h : audioCase e platform = .ok own) : ∀ x ∈ own, x.type = "tag" := by
  unfold audioCase at h
  refine withRequired_type _ _ _ _ (fun l hl => forEachAttr_type _ _ ?_ l hl) h
  intro a l2 hf
  iterate 10 (all_goals (try split at hf))
  all_goals exact attrCheck_type _ _ _ _ _ hf

theorem breakCase_type (e : Element) (own : List SSMLError)
    (h : breakCase e = .ok own) : ∀ x ∈ own, x.type = "tag" := by
  unfold breakCase at h
  refine forEachAttr_type _ _ ?_ _ h
  intro a l2 hf
  iterate 4 (all_goals (try split at hf))
  all_goals exact attrCheck_type _ _ _ _ _ hf

theorem emphasisCase_type (e : Element) (platform : String) (own : List SSMLError)
    (h : emphasisCase e platform = .ok own) : ∀ x ∈ own, x.type = "tag" := by
  unfold emphasisCase at h
  refine withRequired_type _ _ _ _ (fun l hl => forEachAttr_type _ _ ?_ l hl) h
  intro a l2 hf
  iterate 4 (all_goals (try split at hf))
  all_goals exact attrCheck_type _ _ _ _ _ hf

theorem langCase_type (e : Element) (own : List SSMLError)
    (h : langCase e = .ok own) : ∀ x ∈ own, x.type = "tag" := by
  unfold langCase at h
  refine withRequired_type _ _ _ _ (fun l hl => forEachAttr_type _ _ ?_ l hl) h
  intro a l2 hf
  iterate 4 (all_goals (try split at hf))
  all_goals exact attrCheck_type _ _ _ _ _ hf

theorem mediaCase_type (e : Element) (own : List SSMLError)
    (h : mediaCase e = .ok own) : ∀ x ∈ own, x.type = "tag" := by
  unfold mediaCase at h
  refine forEachAttr_type _ _ ?_ _ h
  intro a l2 hf
  iterate 10 (all_goals (try split at hf))
  all_goals exact attrCheck_type _ _ _ _ _ hf

theorem noAttributesCase_type (e : Element) (own : List SSMLError)
    (h : noAttributesCase e = .ok own) : ∀ x ∈ own, x.type = "tag" := by
  unfold noAttributesCase at h
  refine forEachAttr_type _ _ ?_ _ h
  intro a l2 hf
  exact attrCheck_type _ _ _ _ _ hf

theorem parSeqCase_type (e : Element) (own : List SSMLError)
    (h : parSeqCase e = .ok own) : ∀ x ∈ own, x.type = "tag" := by
  unfold parSeqCase at h
  split at h
  · split at h
    · exact Except.noConfusion h
    · cases h; intro x hx; cases hx
  · cases h; intro x hx; cases hx

theorem phonemeCase_type (e : Element) (own : List SSMLError)
    (h : phonemeCase e = .ok own) : ∀ x ∈ own, x.type = "tag" := by
  unfold phonemeCase at h
  refine forEachAttr_type _ _ ?_ _ h
  intro a l2 hf
  iterate 4 (all_goals (try split at hf))
  all_goals exact attrCheck_type _ _ _ _ _ hf

theorem prosodyCase_type (e : Element) (own : List SSMLError)
    (h : prosodyCase e = .ok own) : ∀ x ∈ own, x.type = "tag" := by
  unfold prosodyCase at h
  refine forEachAttr_type _ _ ?_ _ h
  intro a l2 hf
  iterate 8 (all_goals (try split at hf))
  all_goals exact attrCheck_type _ _ _ _ _ hf

theorem sayAsCase_type (e : Element) (platform : String) (own : List SSMLError)
    (h : sayAsCase e platform = .ok own) : ∀ x ∈ own, x.type = "tag" := by
  unfold sayAsCase at h
  refine forEachAttr_type _ _ ?_ _ h
  intro a l2 hf
  iterate 6 (all_goals (try split at hf))
  all_goals exact attrCheck_type _ _ _ _ _ hf

theorem subCase_type (e : Element) (own : List SSMLError)
    (h : subCase e = .ok own) : ∀ x ∈ own, x.type = "tag" := by
  unfold subCase at h
  refine forEachAttr_type _ _ ?_ _ h
  intro a l2 hf
  iterate 2 (all_goals (try split at hf))
  all_goals exact attrCheck_type _ _ _ _ _ hf

theorem voiceCase_type (e : Element) (own : List SSMLError)
    (h : voiceCase e = .ok own) : ∀ x ∈ own, x.type = "tag" := by
  unfold voiceCase at h
  refine forEachAttr_type _ _ ?_ _ h
  intro a l2 hf
  iterate 2 (all_goals (try split at hf))
  all_goals exact attrCheck_type _ _ _ _ _ hf

theorem wCase_type (e : Element) (own : List SSMLError)
    (h : wCase e = .ok own) : ∀ x ∈ own, x.type = "tag" := by
  unfold wCase at h
  refine forEachAttr_type _ _ ?_ _ h
  intro a l2 hf
  iterate 2 (all_goals (try split at hf))
  all_goals exact attrCheck_type _ _ _ _ _ hf

set_option maxHeartbeats 1600000 in
/-- Every error record pushed by the per-element body has `type = "tag"`. -/
theorem elementErrors_type (e : Element) (platform : String) (own : List SSMLError)
    (h : elementErrors e platform = .ok own) : ∀ x ∈ own, x.type = "tag" := by
  unfold elementErrors at h
  split at h
  · cases h; intro x hx; cases hx
  · rename_i name heq
    cases hb0 : name == "" with
    | true => simp only [hb0, if_true] at h; cases h; intro x hx; cases hx
    | false =>
      simp only [hb0, Bool.false_eq_true, if_false] at h
      cases hb1 : (!validTags.contains name &&
          !((platform == "amazon" && validAmazonTags.contains name) ||
            (platform == "google" && validGoogleTags.contains name))) with
      | true =>
        simp only [hb1, if_true] at h
        cases h; intro x hx; rcases List.mem_singleton.mp hx with rfl; rfl
      | false =>
        simp only [hb1, Bool.false_eq_true, if_false] at h
        cases hb2 : (name == "amazon:effect") with
        | true => simp only [hb2, if_true] at h; exact amazonEffectCase_type _ _ h
        | false =>
          simp only [hb2, Bool.false_eq_true, if_false] at h
          cases hb3 : (name == "audio") with
          | true => simp only [hb3, if_true] at h; exact audioCase_type _ _ _ h
          | false =>
            simp only [hb3, Bool.false_eq_true, if_false] at h
            cases hb4 : (name == "break") with
            | true => simp only [hb4, if_true] at h; exact breakCase_type _ _ h
            | false =>
              simp only [hb4, Bool.false_eq_true, if_false] at h
              cases hb5 : (name == "emphasis") with
              | true => simp only [hb5, if_true] at h; exact emphasisCase_type _ _ _ h
              | false =>
                simp only [hb5, Bool.false_eq_true, if_false] at h
                cases hb6 : (name == "lang") with
                | true => simp only [hb6, if_true] at h; exact langCase_type _ _ h
                | false =>
                  simp only [hb6, Bool.false_eq_true, if_false] at h
                  cases hb7 : (name == "media") with
                  | true => simp only [hb7, if_true] at h; exact mediaCase_type _ _ h
                  | false =>
                    simp only [hb7, Bool.false_eq_true, if_false] at h
                    cases hb8 : (name == "p") with
                    | true => simp only [hb8, if_true] at h; exact noAttributesCase_type _ _ h
                    | false =>
                      simp only [hb8, Bool.false_eq_true, if_false] at h
                      cases hb9 : (name == "par" || name == "seq") with
                      | true => simp only [hb9, if_true] at h; exact parSeqCase_type _ _ h
                      | false =>
                        simp only [hb9, Bool.false_eq_true, if_false] at h
                        cases hb10 : (name == "phoneme") with
                        | true => simp only [hb10, if_true] at h; exact phonemeCase_type _ _ h
                        | false =>
                          simp only [hb10, Bool.false_eq_true, if_false] at h
                          cases hb11 : (name == "prosody") with
                          | true => simp only [hb11, if_true] at h; exact prosodyCase_type _ _ h
                          | false =>
                            simp only [hb11, Bool.false_eq_true, if_false] at h
                            cases hb12 : (name == "s") with
                            | true => simp only [hb12, if_true] at h; exact noAttributesCase_type _ _ h
                            | false =>
                              simp only [hb12, Bool.false_eq_true, if_false] at h
                              cases hb13 : (name == "say-as") with
                              | true => simp only [hb13, if_true] at h; exact sayAsCase_type _ _ _ h
                              | false =>
                                simp only [hb13, Bool.false_eq_true, if_false] at h
                                cases hb14 : (name == "sub") with
                                | true => simp only [hb14, if_true] at h; exact subCase_type _ _ h
                                | false =>
                                  simp only [hb14, Bool.false_eq_true, if_false] at h
                                  cases hb15 : (name == "voice") with
                                  | true => simp only [hb15, if_true] at h; exact voiceCase_type _ _ h
                                  | false =>
                                    simp only [hb15, Bool.false_eq_true, if_false] at h
                                    cases hb16 : (name == "w") with
                                    | true => simp only [hb16, if_true] at h; exact wCase_type _ _ h
                                    | false =>
                                      simp only [hb16, Bool.false_eq_true, if_false] at h
                                      cases h; intro x hx; cases hx


theorem checkForValidTags_none_eq (errors : List SSMLError) (n : Option String)
    (a : Option (List (String × String))) (platform : String) :
    checkForValidTags errors (.mk n a none) platform =
      (match elementErrors (.mk n a none) platform with
       | .error _ => (errors, true)
       | .ok own => (errors ++ own, false)) := rfl

theorem checkForValidTags_some_eq (errors : List SSMLError) (n : Option String)
    (a : Option (List (String × String))) (children : List Element) (platform : String) :
    checkForValidTags errors (.mk n a (some children)) platform =
      (match elementErrors (.mk n a (some children)) platform with
       | .error _ => (errors, true)
       | .ok own => checkTagsList (errors ++ own) children platform) := rfl

theorem checkTagsList_nil_eq (errors : List SSMLError) (platform : String) :
    checkTagsList errors [] platform = (errors, false) := rfl

theorem checkTagsList_cons_eq (errors : List SSMLError) (e : Element) (rest : List Element)
    (platform : String) :
    checkTagsList errors (e :: rest) platform =
      (match checkForValidTags errors e platform with
       | (errs, true) => (errs, true)
       | (errs, false) => checkTagsList errs rest platform) := rfl

mutual
/-- The traversal only ever accumulates `type = "tag"` records beyond the
ones it was given. -/
theorem checkForValidTags_type (errors : List SSMLError) (e : Element) (platform : String)
    (h : ∀ x ∈ errors, x.type = "tag") :
    ∀ x ∈ (checkForValidTags errors e platform).1, x.type = "tag" := by
  cases e with
  | mk n a c =>
    cases c with
    | none =>
      rw [checkForValidTags_none_eq]
      cases hel : elementErrors (Element.mk n a none) platform with
      | error u =>
        simp only [hel]
        exact h
      | ok own =>
        simp only [hel]
        intro x hx
        rcases List.mem_append.mp hx with hx | hx
        · exact h x hx
        · exact elementErrors_type _ platform own hel x hx
    | some children =>
      rw [checkForValidTags_some_eq]
      cases hel : elementErrors (Element.mk n a (some children)) platform with
      | error u =>
        simp only [hel]
        exact h
      | ok own =>
        simp only [hel]
        refine checkTagsList_type (errors ++ own) children platform ?_
        intro x hx
        rcases List.mem_append.mp hx with hx | hx
        · exact h x hx
        · exact elementErrors_type _ platform own hel x hx

theorem checkTagsList_type (errors : List SSMLError) (es : List Element) (platform : String)
    (h : ∀ x ∈ errors, x.type = "tag") :
    ∀ x ∈ (checkTagsList errors es platform).1, x.type = "tag" := by
  cases es with
  | nil =>
    rw [checkTagsList_nil_eq]
    exact h
  | cons e rest =>
    rw [checkTagsList_cons_eq]
    cases hc : checkForValidTags errors e platform with
    | mk errs flag =>
      have herrs := checkForValidTags_type errors e platform h
      rw [hc] at herrs
      cases flag with
      | true =>
        simp only [hc]
        exact herrs
      | false =>
        simp only [hc]
        exact checkTagsList_type errs rest platform herrs
end

/-! ### Claim theorems -/

/-- C1: the say-as `interpret-as` platform gate is disabled.  The claim
says a value outside the universal list is only accepted under platform
amazon (for number/digits/address/interjection) or google
(bleep/verbatim) and that any other value yields a Tag error; in the
code, `indexOf` receives the Boolean `value !== -1` and returns `-1`,
which is truthy, so under platform amazon or google every value
whatsoever is accepted (no error), while under platform all even the
platform-extension value `number` is rejected. -/
theorem sayAs_platform_gate_disabled (v : String) :
    elementErrors (Element.mk (some "say-as") (some [("interpret-as", v)]) none) "amazon" =
      Except.ok [] ∧
    elementErrors (Element.mk (some "say-as") (some [("interpret-as", v)]) none) "google" =
      Except.ok [] ∧
    elementErrors (Element.mk (some "say-as") (some [("interpret-as", "number")]) none) "all" =
      Except.ok [{ type := "tag", tag := some "say-as", attr := some "interpret-as",
                   value := some (some "number") }] := by
  refine ⟨?_, ?_, rfl⟩ <;>
  · cases hcv : interpretAsUniversal.contains v with
    | true =>
      simp only [elementErrors, sayAsCase, keysOf, valOf, forEachAttr, attrCheck, lookupAttr,
        Element.nameOf, Element.attrsOf, beq_self_eq_true, if_true, Option.getD, hcv,
        Bool.true_or, Bool.false_or]
      rfl
    | false =>
      simp only [elementErrors, sayAsCase, keysOf, valOf, forEachAttr, attrCheck, lookupAttr,
        Element.nameOf, Element.attrsOf, beq_self_eq_true, if_true, Option.getD, hcv,
        Bool.true_or, Bool.false_or]
      rfl

/-- C2: for `amazon:effect`, `audio`, `emphasis` and `lang` elements with
zero attributes (the attributes object is absent, as the xml-js adapter
produces), the missing-required branch calls
`createTagError(element, 'none')`, which reads a property of `undefined`
and throws a TypeError; the public result is the single unknown-error
record, not the claimed missing-required Tag error. -/
theorem zero_attributes_unknown_error :
    check (ParseResult.ok (some [Element.mk (some "speak") none
        (some [Element.mk (some "emphasis") none none])])) false none (fun _ => none) =
      some [{ type := "unknown error" }] ∧
    check (ParseResult.ok (some [Element.mk (some "speak") none
        (some [Element.mk (some "audio") none none])])) false none (fun _ => none) =
      some [{ type := "unknown error" }] ∧
    check (ParseResult.ok (some [Element.mk (some "speak") none
        (some [Element.mk (some "amazon:effect") none none])])) false
      (some { platform := some "amazon" }) (fun _ => none) =
      some [{ type := "unknown error" }] ∧
    check (ParseResult.ok (some [Element.mk (some "speak") none
        (some [Element.mk (some "lang") none none])])) false
      (some { platform := some "amazon" }) (fun _ => none) =
      some [{ type := "unknown error" }] :=
  ⟨rfl, rfl, rfl, rfl⟩

/-- C3: for a `par` (or `seq`) element with a child that is not
par/seq/media, the offending-child branch evaluates the undeclared
identifier `attribute` and throws a ReferenceError; the public result is
the single unknown-error record, not an error citing the child.
Children named par/seq/media produce no error. -/
theorem parseq_child_reference_error :
    check (ParseResult.ok (some [Element.mk (some "speak") none
        (some [Element.mk (some "par") none
          (some [Element.mk (some "break") none none])])])) false
      (some { platform := some "google" }) (fun _ => none) =
      some [{ type := "unknown error" }] ∧
    check (ParseResult.ok (some [Element.mk (some "speak") none
        (some [Element.mk (some "seq") none
          (some [Element.mk (some "media") none none,
                 Element.mk (some "par") none none])])])) false
      (some { platform := some "google" }) (fun _ => none) = none :=
  ⟨rfl, rfl⟩

/-- C4, counterexample: a document with six `audio` elements (each
carrying a child text node) yields no error at all — in particular no
TooManyAudioFiles — because `getAudioFiles` never collects the `src` of
an `audio` element that has a child list. -/
theorem six_audio_with_children_no_tooMany :
    check (ParseResult.ok (some [Element.mk (some "speak") none
        (some (List.replicate 6 (Element.mk (some "audio")
          (some [("src", "https://x.example/a.mp3")])
          (some [Element.mk none none none]))))])) false none (fun _ => none) = none :=
  rfl

theorem mem_finalize_getD (l : List SSMLError) (x : SSMLError) (hx : x ∈ l) :
    x ∈ (finalize l).getD [] := by
  unfold finalize
  split
  · rename_i hem
    rw [List.isEmpty_iff] at hem
    subst hem
    cases hx
  · simpa using hx

/-- C4, amended: whenever extraction succeeds and collects more than 5
`src` values, the result contains the TooManyAudioFiles error whether or
not `validateAudioFiles` is set; but extraction only collects the `src`
of `audio` elements that have no child list and a non-empty `src`
attribute (an `audio` element with children is recursed into and its own
`src` is skipped), in document order with duplicates preserved. -/
theorem tooMany_when_more_than_five_collected :
    (∀ (speech : Element) (retry : Bool) (options : Option CheckOptions)
       (probe : String → Option (List AudioStream)) (errs : List SSMLError)
       (files : List String),
       (["all", "amazon", "google"].contains (resolvedPlatform options)) = true →
       (speech.nameOf == some "speak") = true →
       checkForValidTags [] speech (resolvedPlatform options) = (errs, false) →
       getAudioFiles speech = .ok files →
       5 < files.length →
       { type := "Too many audio files" : SSMLError } ∈
         ((check (ParseResult.ok (some [speech])) retry options probe).getD [])) ∧
    getAudioFiles (Element.mk (some "speak") none (some [
      Element.mk (some "audio") (some [("src", "https://a.mp3")]) none,
      Element.mk (some "x") none (some [
        Element.mk (some "audio") (some [("src", "https://b.mp3")]) none,
        Element.mk (some "audio") (some [("src", "https://a.mp3")]) none]),
      Element.mk (some "audio") (some [("alt", "y")]) none,
      Element.mk (some "audio") (some [("src", "https://c.mp3")])
        (some [Element.mk none none none])])) =
      .ok ["https://a.mp3", "https://b.mp3", "https://a.mp3"] := by
  refine ⟨?_, rfl⟩
  intro speech retry options probe errs files hplat hname hck hfiles hcount
  unfold check checkFull
  simp only [hplat, Bool.not_true, Bool.false_eq_true, if_false, hname, if_true, hck, hfiles]
  rw [if_pos hcount]
  split
  · exact mem_finalize_getD _ _
      (List.mem_append_left _ (List.mem_append_right _ (List.mem_singleton.mpr rfl)))
  · exact mem_finalize_getD _ _ (List.mem_append_right _ (List.mem_singleton.mpr rfl))

theorem tooMany_when_more_than_five_collected_witness :
    { type := "Too many audio files" : SSMLError } ∈
      ((check (ParseResult.ok (some [Element.mk (some "speak") none
        (some (List.replicate 6 (Element.mk (some "audio")
          (some [("src", "https://x.example/a.mp3")]) none)))])) false none
        (fun _ => none)).getD []) :=
  tooMany_when_more_than_five_collected.1
    (Element.mk (some "speak") none (some (List.replicate 6 (Element.mk (some "audio")
      (some [("src", "https://x.example/a.mp3")]) none)))) false none (fun _ => none)
    [] (List.replicate 6 "https://x.example/a.mp3") rfl rfl rfl rfl (by decide)

/-- C5: when the first parse throws and the ampersand-substitution retry
parses, the result is exactly the single "Invalid & character" error and
schema validation is never reached; when the retry also throws, the
result is exactly the single "Can't parse SSML" error. -/
theorem ampersand_retry_terminal (options : Option CheckOptions)
    (probe : String → Option (List AudioStream))
    (hplat : (["all", "amazon", "google"].contains (resolvedPlatform options)) = true) :
    check ParseResult.err true options probe = some [{ type := "Invalid & character" }] ∧
    check ParseResult.err false options probe = some [{ type := "Can\x27t parse SSML" }] := by
  refine ⟨?_, ?_⟩ <;>
  · unfold check checkFull
    simp only [hplat, Bool.not_true, Bool.false_eq_true, if_false]
    try rfl

theorem ampersand_retry_terminal_witness :
    check ParseResult.err true none (fun _ => none) =
      some [{ type := "Invalid & character" }] ∧
    check ParseResult.err false none (fun _ => none) =
      some [{ type := "Can\x27t parse SSML" }] :=
  ampersand_retry_terminal none (fun _ => none) rfl

/-- C6, counterexample: the claim says the duration parser fails on any
shape other than `"infinity"`, `"Nms"` and `"N(.M)s"`, but the
milliseconds regex is unanchored, so `"5s5ms"` parses to 5 ms, and a
`break` with `time="12ms34"` (12 ms after `parseInt`) passes the check
with no Tag error. -/
theorem readDuration_other_shapes_accepted :
    readDuration "5s5ms" none = some (JsNumber.num 5) ∧
    elementErrors (Element.mk (some "break") (some [("time", "12ms34")]) none) "all" =
      Except.ok [] :=
  ⟨rfl, rfl⟩

/-- C6, amended: `"infinity"` maps to the unbounded sentinel only when no
(truthy) maximum is supplied; a text containing digits immediately
followed by `ms` maps to `parseInt` of the whole text; the anchored
`N(.M)?s` form maps to 1000 times the integer part (`"1.5s"` → 1000 ms);
texts matching no form fail; with a (non-zero) maximum any successful
result is bounded by the maximum, so `break time="5s"` yields no error
and `break time="20s"` yields exactly one Tag error for `time` under the
10000 ms cap. -/
theorem readDuration_forms_and_cap :
    readDuration "infinity" none = some (JsNumber.num 9007199254740991) ∧
    readDuration "infinity" (some 10000) = none ∧
    readDuration "7ms" none = some (JsNumber.num 7) ∧
    readDuration "1.5s" none = some (JsNumber.num 1000) ∧
    readDuration "abc" none = none ∧
    (∀ (t : String) (m n : Int), m ≠ 0 →
      readDuration t (some m) = some (JsNumber.num n) → n ≤ m) ∧
    check (ParseResult.ok (some [Element.mk (some "speak") none
        (some [Element.mk (some "break") (some [("time", "5s")]) none])])) false none
      (fun _ => none) = none ∧
    check (ParseResult.ok (some [Element.mk (some "speak") none
        (some [Element.mk (some "break") (some [("time", "20s")]) none])])) false none
      (fun _ => none) =
      some [{ type := "tag", tag := some "break", attr := some "time",
              value := some (some "20s") }] := by
  refine ⟨rfl, rfl, rfl, rfl, rfl, ?_, rfl, rfl⟩
  intro t m n hm h
  have hb : (m == 0) = false := beq_eq_false_iff_ne.mpr hm
  unfold readDuration at h
  cases hT : readDurationRaw t (some m) with
  | none => rw [hT] at h; exact Option.noConfusion h
  | some t' =>
    rw [hT] at h
    simp only [maxTruthy, hb, Bool.not_false, if_true, Option.getD_some] at h
    split at h
    · rename_i hle
      cases h
      exact of_decide_eq_true hle
    · exact Option.noConfusion h

theorem readDuration_forms_and_cap_witness : (10000 : Int) ≠ 0 ∧ (5000 : Int) ≤ 10000 :=
  ⟨by decide, readDuration_forms_and_cap.2.2.2.2.2.1 "5s" 10000 5000 (by decide) rfl⟩

/-- C10: the milliseconds form is matched as an unanchored substring, so
any text containing a digit immediately followed by `ms` is mapped to
`parseInt` of the whole text; `"5msXYZ"` is accepted as 5 ms even under
the 10000 ms maximum, and with no maximum supplied even `"abc5ms"`
(whose `parseInt` is `NaN`) is accepted, because only the `undefined`
failure sentinel counts as invalid — a google `audio` `clipBegin` of
`"abc5ms"` and a `break` `time` of `"5msXYZ"` produce no error. -/
theorem readDuration_unanchored_ms :
    (∀ s : String, containsDigitMs s.toList = true →
      readDuration s none = some (parseIntJs s)) ∧
    readDuration "5msXYZ" (some 10000) = some (JsNumber.num 5) ∧
    readDuration "abc5ms" none = some JsNumber.nan ∧
    elementErrors (Element.mk (some "audio") (some [("clipBegin", "abc5ms")]) none) "google" =
      Except.ok [] ∧
    elementErrors (Element.mk (some "break") (some [("time", "5msXYZ")]) none) "all" =
      Except.ok [] := by
  refine ⟨?_, rfl, rfl, rfl, rfl⟩
  intro s hs
  have hinf : (s == "infinity") = false := by
    cases hbeq : s == "infinity" with
    | false => rfl
    | true =>
      have hseq : s = "infinity" := eq_of_beq hbeq
      rw [hseq] at hs
      exact absurd hs (by decide)
  unfold readDuration readDurationRaw
  simp only [maxTruthy, Bool.not_false, hinf, Bool.and_false, Bool.false_eq_true, if_false,
    hs, if_true]

theorem readDuration_unanchored_ms_witness :
    readDuration "7msQ" none = some (parseIntJs "7msQ") :=
  readDuration_unanchored_ms.1 "7msQ" (by decide)

/-- C7: with audio content validation requested and the probe settled
successfully, every stream whose sample rate is outside
{16000, 22050, 24000}, whose bit rate differs from 48000, or whose
duration exceeds 240 seconds contributes its own Audio error carrying the
offending measured value (so one reference can yield several errors); in
particular a probe reporting a 44100 Hz stream (48000 bit rate, duration
within bounds) yields exactly one Audio error citing 44100. -/
theorem validateAudio_stream_constraints :
    (∀ (src : String) (streams : List AudioStream) (st : AudioStream),
      isHttpsMp3 src = true → st ∈ streams →
      ((([22050, 24000, 16000] : List Int).contains st.sample_rate = false →
         { type := "audio", value := some (some src),
           detail := some ("Invalid bit rate " ++ toString st.sample_rate ++ " Hz") } ∈
           validateAudio src (some streams)) ∧
       ((st.bit_rate == 48000) = false →
         { type := "audio", value := some (some src),
           detail := some ("Invalid bit rate " ++ toString st.bit_rate) } ∈
           validateAudio src (some streams)) ∧
       (240 < st.duration →
         { type := "audio", value := some (some src),
           detail := some ("Invalid duration " ++ toString st.duration ++ " Hz") } ∈
           validateAudio src (some streams)))) ∧
    validateAudio "https://x.example/a.mp3"
      (some [{ sample_rate := 44100, bit_rate := 48000, duration := 100 }]) =
      [{ type := "audio", value := some (some "https://x.example/a.mp3"),
         detail := some "Invalid bit rate 44100 Hz" }] := by
  constructor
  · intro src streams st hsrc hmem
    have hval : validateAudio src (some streams) =
        streams.foldl (fun acc st2 => acc ++ streamErrors src st2) [] := by
      unfold validateAudio
      simp only [hsrc, Bool.not_true, Bool.false_eq_true, if_false]
    refine ⟨?_, ?_, ?_⟩ <;> intro hcond <;> rw [hval] <;>
      refine (mem_foldl_append _ streams [] _).mpr (Or.inr ⟨st, hmem, ?_⟩) <;>
      unfold streamErrors
    · rw [hcond]
      simp
    · rw [hcond]
      simp
    · rw [if_pos hcond]
      simp
  · rfl

theorem validateAudio_stream_constraints_witness :
    { type := "audio", value := some (some "https://x.example/a.mp3"),
      detail := some ("Invalid bit rate " ++ toString (44100 : Int) ++ " Hz") } ∈
      validateAudio "https://x.example/a.mp3"
        (some [{ sample_rate := 44100, bit_rate := 48000, duration := 100 }]) :=
  ((validateAudio_stream_constraints.1 "https://x.example/a.mp3"
      [{ sample_rate := 44100, bit_rate := 48000, duration := 100 }]
      { sample_rate := 44100, bit_rate := 48000, duration := 100 }
      rfl (List.mem_singleton.mpr rfl)).1) rfl

theorem checkForValidTags_pair_type (e : Element) (platform : String) (errs : List SSMLError)
    (flag : Bool) (h : checkForValidTags [] e platform = (errs, flag)) :
    ∀ x ∈ errs, x.type = "tag" := by
  have hT := checkForValidTags_type [] e platform (by intro x hx; cases hx)
  rw [h] at hT
  exact hT

/-- Either no exception was caught, or the result is the accumulated
schema errors (all of type `"tag"`) with exactly one appended
unknown-error record. -/
theorem checkFull_parts (p : ParseResult) (r : Bool) (o : Option CheckOptions)
    (pr : String → Option (List AudioStream)) :
    (checkFull p r o pr).2 = false ∨
    (∃ errs : List SSMLError, (∀ x ∈ errs, x.type = "tag") ∧
      checkFull p r o pr = (finalize (errs ++ [{ type := "unknown error" }]), true)) := by
  unfold checkFull
  dsimp only []
  split
  · left; rfl
  · split
    · split
      · left; rfl
      · left; rfl
    · split
      · rename_i speech
        split
        · cases hck : checkForValidTags [] speech (resolvedPlatform o) with
          | mk errs flag =>
            cases flag with
            | true =>
              dsimp only []
              right
              exact ⟨errs, checkForValidTags_pair_type _ _ _ _ hck, rfl⟩
            | false =>
              dsimp only []
              cases hga : getAudioFiles speech with
              | error u =>
                dsimp only []
                right
                exact ⟨errs, checkForValidTags_pair_type _ _ _ _ hck, rfl⟩
              | ok audio =>
                dsimp only []
                split
                · left; rfl
                · left; rfl
        · left; rfl
      · left; rfl

/-- Every value of the entry point is either one of the fixed
single-error terminal results or `errors.length ? errors : undefined`. -/
theorem checkFull_fst_cases (p : ParseResult) (r : Bool) (o : Option CheckOptions)
    (pr : String → Option (List AudioStream)) :
    (∃ x : SSMLError, (checkFull p r o pr).1 = some [x]) ∨
    (∃ l : List SSMLError, (checkFull p r o pr).1 = finalize l) := by
  unfold checkFull
  dsimp only []
  split
  · exact Or.inl ⟨_, rfl⟩
  · split
    · split
      · exact Or.inl ⟨_, rfl⟩
      · exact Or.inl ⟨_, rfl⟩
    · split
      · rename_i speech
        split
        · cases hck : checkForValidTags [] speech (resolvedPlatform o) with
          | mk errs flag =>
            cases flag with
            | true => exact Or.inr ⟨_, rfl⟩
            | false =>
              dsimp only []
              cases hga : getAudioFiles speech with
              | error u => exact Or.inr ⟨_, rfl⟩
              | ok audio =>
                dsimp only []
                split
                · exact Or.inr ⟨_, rfl⟩
                · exact Or.inr ⟨_, rfl⟩
        · exact Or.inl ⟨_, rfl⟩
      · exact Or.inl ⟨_, rfl⟩

/-- C8: whenever the pipeline catches an exception (the `catch` of the
entry point fired), the caller still receives a settled result, and that
result contains exactly one unknown-error record; faults are never
propagated (the catch turns them into this record appended after any
already-accumulated errors). -/
theorem check_unanticipated_fault_single_unknown (p : ParseResult) (r : Bool)
    (o : Option CheckOptions) (pr : String → Option (List AudioStream))
    (hcrash : (checkFull p r o pr).2 = true) :
    (check p r o pr).isSome = true ∧
    ((check p r o pr).getD []).countP (fun e => e.type == "unknown error") = 1 := by
  rcases checkFull_parts p r o pr with hf | ⟨errs, htypes, heq⟩
  · rw [hf] at hcrash
    exact Bool.noConfusion hcrash
  · have hne : errs ++ [{ type := "unknown error" : SSMLError }] ≠ [] := by simp
    have hfin := finalize_of_ne_nil _ hne
    constructor
    · unfold check
      rw [heq]
      dsimp only []
      rw [hfin]
      rfl
    · unfold check
      rw [heq]
      dsimp only []
      rw [hfin]
      simp only [Option.getD_some]
      rw [List.countP_append]
      have h0 : errs.countP (fun e => e.type == "unknown error") = 0 := by
        rw [List.countP_eq_zero]
        intro a ha
        simp [htypes a ha]
      rw [h0]
      rfl

theorem check_unanticipated_fault_single_unknown_witness :
    (check (ParseResult.ok (some [Element.mk (some "speak") none
      (some [Element.mk (some "audio") none none])])) false none
      (fun _ => none)).isSome = true ∧
    ((check (ParseResult.ok (some [Element.mk (some "speak") none
      (some [Element.mk (some "audio") none none])])) false none
      (fun _ => none)).getD []).countP (fun e => e.type == "unknown error") = 1 :=
  check_unanticipated_fault_single_unknown _ _ _ _ rfl

/-- C9: the entry point never resolves to an empty error list: the
result is either the explicit absence-of-errors value (`undefined`,
embedded as `none`) or a list with at least one record. -/
theorem check_result_never_empty_list (p : ParseResult) (r : Bool) (o : Option CheckOptions)
    (pr : String → Option (List AudioStream)) :
    check p r o pr = none ∨ 0 < ((check p r o pr).getD []).length := by
  have hfin : ∀ l : List SSMLError, finalize l = none ∨ 0 < ((finalize l).getD []).length := by
    intro l
    unfold finalize
    split
    · left; rfl
    · right
      rename_i hne
      simp only [Option.getD_some]
      have hnil : l ≠ [] := by
        intro hcon
        exact hne (by simp [hcon])
      exact List.length_pos.mpr hnil
  rcases checkFull_fst_cases p r o pr with ⟨x, hx⟩ | ⟨l, hl⟩
  · right
    unfold check
    rw [hx]
    simp
  · unfold check
    rw [hl]
    exact hfin l
